import Mathlib

/-!
Verification of the Raindrop risk-assessment and alerting engine.

This file gives a shallow embedding, in Lean 4, of the persistence layer
and the risk/alert/forecast logic of the repository (the SQLite-backed
store in `backend/core/database/raindrop_db.py`, the alert management in
`backend/api/stations.py`, the analyzer in
`backend/core/analysis/risk_analyzer.py`, the spatial correlation in
`backend/core/ml/incident_correlation.py` and the predictor in
`backend/core/ml/risk_predictor.py`), and proves or refutes the stated
properties of the specification against that embedding.

Conventions used by the embedding:
* SQL tables are lists of row structures; `REAL` columns become `ℚ`
  (every literal the code compares against is a decimal fraction),
  nullable columns become `Option` types, `TEXT` columns become `String`.
* SQLite compares `TEXT` values with `memcmp` (BINARY collation); for the
  ASCII strings stored here that is exactly the lexicographic order on
  the underlying character lists, i.e. the `String` linear order.
* Timestamps produced by `datetime.now(timezone.utc).isoformat()` are
  opaque `String` values passed in as a `now` parameter.
-/

namespace Raindrop

/-! ## Active alerts (`active_alerts` table, `raindrop_db.upsert_alert` /
`raindrop_db.remove_alert`, `stations._manage_alert`) -/

/-- A row of the `active_alerts` table.  Schema from `init_database`:
unique per `(station_id, alert_type)`. -/
structure AlertRow where
  station_id : Int
  station_name : String
  alert_type : String
  risk_level : String
  probability : ℚ
  triggered_at : String
  updated_at : String
deriving DecidableEq, Repr

/-- The key predicate `WHERE station_id = ? AND alert_type = ?`. -/
def alertKeyMatches (sid : Int) (atype : String) (r : AlertRow) : Bool :=
  r.station_id == sid && r.alert_type == atype

/-- Embeds `raindrop_db.upsert_alert`: select the existing row for the key; if one
exists, `UPDATE ... SET risk_level, probability, updated_at, station_name`
(the original `triggered_at` is kept); otherwise `INSERT` a new row with
`triggered_at = now` and `updated_at = now`. -/
def upsert_alert (table : List AlertRow) (sid : Int) (sname atype rlevel : String)
    (prob : ℚ) (now : String) : List AlertRow :=
  match table.find? (alertKeyMatches sid atype) with
  | some _ =>
      table.map fun r =>
        if alertKeyMatches sid atype r then
          { r with risk_level := rlevel, probability := prob,
                   updated_at := now, station_name := sname }
        else r
  | none =>
      table ++ [{ station_id := sid, station_name := sname, alert_type := atype,
                  risk_level := rlevel, probability := prob,
                  triggered_at := now, updated_at := now }]

/-- Embeds `raindrop_db.remove_alert`: `DELETE FROM active_alerts WHERE station_id = ?
AND alert_type = ?`. -/
def remove_alert (table : List AlertRow) (sid : Int) (atype : String) : List AlertRow :=
  table.filter fun r => !(alertKeyMatches sid atype r)

/-- Embeds `stations._manage_alert`: upsert when `probability >= 0.50`, otherwise
delete any existing alert for the key. -/
def manage_alert (table : List AlertRow) (sid : Int) (sname atype : String)
    (prob : ℚ) (rlevel : String) (now : String) : List AlertRow :=
  if 1/2 ≤ prob then upsert_alert table sid sname atype rlevel prob now
  else remove_alert table sid atype

/-! Helper lemmas about `find?`, `filter` and the update-matching map used
by the upsert embeddings. -/

/-- Updating the rows that match `p` with a match-preserving function
commutes with `find?`. -/
theorem find?_map_update (p : α → Bool) (f : α → α)
    (hf : ∀ a, p a = true → p (f a) = true) (l : List α) :
    (l.map fun a => if p a then f a else a).find? p =
      (l.find? p).map fun a => if p a then f a else a := by
  induction l with
  | nil => rfl
  | cons b t ih =>
      by_cases hb : p b = true
      · simp [List.find?_cons, hb, hf b hb]

      · simp only [Bool.not_eq_true] at hb
        simp [List.find?_cons, hb, ih]

/-- Updating the rows that match `p` with a function that does not change
whether any predicate `q` matches keeps the `q`-filtered length. -/
theorem filter_length_map_update (p q : α → Bool) (f : α → α)
    (hf : ∀ a, q (f a) = q a) (l : List α) :
    ((l.map fun a => if p a then f a else a).filter q).length = (l.filter q).length := by
  induction l with
  | nil => rfl
  | cons b t ih =>
      by_cases hb : p b = true
      · simp only [List.map_cons, if_pos hb, List.filter_cons, hf b]
        cases hq : q b <;> simp [hq, ih]
      · simp only [List.map_cons, if_neg hb, List.filter_cons]
        cases hq : q b <;> simp [hq, ih]

theorem find?_eq_none_filter_nil (p : α → Bool) (l : List α)
    (h : l.find? p = none) : l.filter p = [] := by
  rw [List.filter_eq_nil_iff]
  intro a ha
  exact fun hp => (List.find?_eq_none.mp h a ha) hp

/-- C1: `_manage_alert` reconciliation.  For every alert table satisfying the
`(station_id, alert_type)` uniqueness invariant: if `probability ≥ 0.50` the
ActiveAlert row for the key is upserted — when a row exists, its
`risk_level`, `probability` and `updated_at` (and `station_name`) are
replaced while `triggered_at` is preserved, and exactly one row for the key
remains; when none exists a fresh row with `triggered_at = now` is inserted.
If `probability < 0.50` any existing row for the key is deleted, rows for
other keys survive, and the table is unchanged when no row existed. -/
theorem alert_reconcile_spec (table : List AlertRow) (sid : Int)
    (sname atype rlevel : String) (prob : ℚ) (now : String)
    (hu : (table.filter (alertKeyMatches sid atype)).length ≤ 1) :
    (1/2 ≤ prob →
      (∀ old, table.find? (alertKeyMatches sid atype) = some old →
        (manage_alert table sid sname atype prob rlevel now).find? (alertKeyMatches sid atype) =
          some { old with station_name := sname, risk_level := rlevel,
                          probability := prob, updated_at := now } ∧
        ({ old with station_name := sname, risk_level := rlevel,
                    probability := prob, updated_at := now } : AlertRow).triggered_at
          = old.triggered_at ∧
        ((manage_alert table sid sname atype prob rlevel now).filter
            (alertKeyMatches sid atype)).length = 1) ∧
      (table.find? (alertKeyMatches sid atype) = none →
        manage_alert table sid sname atype prob rlevel now =
          table ++ [⟨sid, sname, atype, rlevel, prob, now, now⟩])) ∧
    (prob < 1/2 →
      (manage_alert table sid sname atype prob rlevel now).find?
          (alertKeyMatches sid atype) = none ∧
      (∀ r ∈ table, alertKeyMatches sid atype r = false →
        r ∈ manage_alert table sid sname atype prob rlevel now) ∧
      (table.find? (alertKeyMatches sid atype) = none →
        manage_alert table sid sname atype prob rlevel now = table)) := by
  constructor
  · intro hp
    constructor
    · intro old hold
      have hred : manage_alert table sid sname atype prob rlevel now =
          table.map fun r =>
            if alertKeyMatches sid atype r then
              { r with risk_level := rlevel, probability := prob,
                       updated_at := now, station_name := sname }
            else r := by
        unfold manage_alert upsert_alert
        rw [if_pos hp, hold]
      have hpres : ∀ a, alertKeyMatches sid atype a = true →
          alertKeyMatches sid atype
            ({ a with risk_level := rlevel, probability := prob,
                      updated_at := now, station_name := sname } : AlertRow) = true :=
        fun a ha => ha
      refine ⟨?_, rfl, ?_⟩
      · rw [hred, find?_map_update _ _ hpres, hold]
        have hkey : alertKeyMatches sid atype old = true := List.find?_some hold
        simp [hkey]
      · rw [hred, filter_length_map_update (alertKeyMatches sid atype) (alertKeyMatches sid atype)
          (fun r => { r with risk_level := rlevel, probability := prob,
                             updated_at := now, station_name := sname }) (fun a => rfl)]
        have hmem : old ∈ table.filter (alertKeyMatches sid atype) :=
          List.mem_filter.mpr ⟨List.mem_of_find?_eq_some hold, List.find?_some hold⟩
        have h1 : 1 ≤ (table.filter (alertKeyMatches sid atype)).length :=
          List.length_pos.mpr (List.ne_nil_of_mem hmem)
        omega
    · intro hnone
      unfold manage_alert upsert_alert
      rw [if_pos hp, hnone]
  · intro hp
    have hred : manage_alert table sid sname atype prob rlevel now =
        table.filter fun r => !(alertKeyMatches sid atype r) := by
      unfold manage_alert remove_alert
      rw [if_neg (by linarith)]
    refine ⟨?_, ?_, ?_⟩
    · rw [hred, List.find?_eq_none]
      intro a ha
      have := (List.mem_filter.mp ha).2
      simp only [Bool.not_eq_true'] at this
      simp [this]
    · intro r hr hkey
      rw [hred]
      exact List.mem_filter.mpr ⟨hr, by simp [hkey]⟩
    · intro hnone
      rw [hred, List.filter_eq_self]
      intro a ha
      have := List.find?_eq_none.mp hnone a ha
      simp only [Bool.not_eq_true] at this ⊢
      simp [this]

/-- C1 witness: the spec's hysteresis example.  Re-evaluating an existing
flood alert (created with probability 0.52 at `t0`) at probability 0.60
updates `risk_level`/`probability`/`updated_at` but keeps `triggered_at = t0`. -/
theorem alert_reconcile_witness :
    (manage_alert [⟨5, "S", "flood", "YELLOW", 52/100, "t0", "t0"⟩]
        5 "S" "flood" (60/100) "RED" "t1").find? (alertKeyMatches 5 "flood") =
      some ⟨5, "S", "flood", "RED", 60/100, "t0", "t1"⟩ := by
  have h := ((alert_reconcile_spec [⟨5, "S", "flood", "YELLOW", 52/100, "t0", "t0"⟩]
      5 "S" "flood" "RED" (60/100) "t1" (by decide)).1 (by norm_num)).1
      ⟨5, "S", "flood", "YELLOW", 52/100, "t0", "t0"⟩ rfl
  exact h.1

/-! ## Hourly observations (`weather_hourly` table,
`raindrop_db.insert_or_update_weather_data`) -/

/-- A row of the `weather_hourly` table.  Schema from `init_database`:
`UNIQUE(station_id, date, hour)`; measurement columns are nullable. -/
structure WeatherRow where
  station_id : Int
  station_name : String
  region : String
  latitude : Option ℚ
  longitude : Option ℚ
  elevation : Option Int
  date : String
  hour : Nat
  timestamp : String
  temperature : Option ℚ
  feels_like : Option ℚ
  humidity : Option ℚ
  wind_speed : Option ℚ
  wind_direction : Option String
  wind_angle : Option Int
  precipitation_total : Option ℚ
  precipitation_type : Option String
  pressure : Option ℚ
  cloud_cover : Option Int
  summary : Option String
  icon : Option String
  created_at : String
  updated_at : String
deriving DecidableEq, Repr

/-- One element of the `weather_data` list handed to
`insert_or_update_weather_data` (the fields the INSERT consumes; `date` and
`hour` are derived from `timestamp` by the caller and passed separately
here). -/
structure WeatherInput where
  station_id : Int
  station_name : String
  region : String
  latitude : Option ℚ
  longitude : Option ℚ
  elevation : Option Int
  timestamp : String
  temperature : Option ℚ
  feels_like : Option ℚ
  humidity : Option ℚ
  wind_speed : Option ℚ
  wind_direction : Option String
  wind_angle : Option Int
  precipitation_total : Option ℚ
  precipitation_type : Option String
  pressure : Option ℚ
  cloud_cover : Option Int
  summary : Option String
  icon : Option String
deriving DecidableEq, Repr

/-- The `(station_id, date, hour)` uniqueness key of `weather_hourly`. -/
def obsKeyMatches (sid : Int) (date : String) (hour : Nat) (r : WeatherRow) : Bool :=
  r.station_id == sid && r.date == date && r.hour == hour

/-- The `ON CONFLICT(station_id, date, hour) DO UPDATE SET ...` clause:
overwrites `timestamp`, every measurement column and `updated_at`;
`station_name`, `region`, `latitude`, `longitude`, `elevation` and
`created_at` are left as first inserted. -/
def applyConflictUpdate (d : WeatherInput) (now : String) (r : WeatherRow) : WeatherRow :=
  { r with timestamp := d.timestamp, temperature := d.temperature,
           feels_like := d.feels_like, humidity := d.humidity,
           wind_speed := d.wind_speed, wind_direction := d.wind_direction,
           wind_angle := d.wind_angle, precipitation_total := d.precipitation_total,
           precipitation_type := d.precipitation_type, pressure := d.pressure,
           cloud_cover := d.cloud_cover, summary := d.summary, icon := d.icon,
           updated_at := now }

/-- The fresh row the INSERT creates when no conflict occurs
(`created_at = updated_at = now`). -/
def freshWeatherRow (d : WeatherInput) (date : String) (hour : Nat) (now : String) : WeatherRow :=
  { station_id := d.station_id, station_name := d.station_name, region := d.region,
    latitude := d.latitude, longitude := d.longitude, elevation := d.elevation,
    date := date, hour := hour, timestamp := d.timestamp,
    temperature := d.temperature, feels_like := d.feels_like, humidity := d.humidity,
    wind_speed := d.wind_speed, wind_direction := d.wind_direction,
    wind_angle := d.wind_angle, precipitation_total := d.precipitation_total,
    precipitation_type := d.precipitation_type, pressure := d.pressure,
    cloud_cover := d.cloud_cover, summary := d.summary, icon := d.icon,
    created_at := now, updated_at := now }

/-- Embeds `raindrop_db.insert_or_update_weather_data`, per incoming record: an
`INSERT ... ON CONFLICT(station_id, date, hour) DO UPDATE` against the
table. -/
def insert_or_update_weather_row (table : List WeatherRow) (d : WeatherInput)
    (date : String) (hour : Nat) (now : String) : List WeatherRow :=
  match table.find? (obsKeyMatches d.station_id date hour) with
  | some _ =>
      table.map fun r =>
        if obsKeyMatches d.station_id date hour r then applyConflictUpdate d now r else r
  | none => table ++ [freshWeatherRow d date hour now]

/-- The `UNIQUE(station_id, date, hour)` invariant of `weather_hourly`. -/
def uniqueObsKeys (table : List WeatherRow) : Prop :=
  ∀ sid date hour, (table.filter (obsKeyMatches sid date hour)).length ≤ 1

/-- The conflict update never changes the uniqueness key of a row. -/
theorem obsKey_applyConflictUpdate (sid : Int) (date : String) (hour : Nat)
    (d : WeatherInput) (now : String) (r : WeatherRow) :
    obsKeyMatches sid date hour (applyConflictUpdate d now r) =
      obsKeyMatches sid date hour r := rfl

/-- Key equality extracted from a `Bool` key match on the fresh row. -/
theorem obsKey_fresh_eq {sid : Int} {date dt : String} {hour hr : Nat}
    {d : WeatherInput} {now : String}
    (h : obsKeyMatches sid dt hr (freshWeatherRow d date hour now) = true) :
    sid = d.station_id ∧ dt = date ∧ hr = hour := by
  simp only [obsKeyMatches, freshWeatherRow, Bool.and_eq_true, beq_iff_eq] at h
  exact ⟨h.1.1.symm, h.1.2.symm, h.2.symm⟩

/-- C3 helper: every insert preserves the uniqueness invariant. -/
theorem insert_preserves_uniqueObsKeys (t : List WeatherRow) (d : WeatherInput)
    (dt : String) (hr : Nat) (nw : String) (hu : uniqueObsKeys t) :
    uniqueObsKeys (insert_or_update_weather_row t d dt hr nw) := by
  intro sid date hour
  unfold insert_or_update_weather_row
  cases hfind : t.find? (obsKeyMatches d.station_id dt hr) with
  | some r0 =>
      simp only
      rw [filter_length_map_update (obsKeyMatches d.station_id dt hr)
        (obsKeyMatches sid date hour) (applyConflictUpdate d nw)
        (fun a => obsKey_applyConflictUpdate sid date hour d nw a)]
      exact hu sid date hour
  | none =>
      simp only [List.filter_append, List.length_append]
      cases hq : obsKeyMatches sid date hour (freshWeatherRow d dt hr nw) with
      | false => simpa [hq] using hu sid date hour
      | true =>
          obtain ⟨h1, h2, h3⟩ := obsKey_fresh_eq hq
          subst h1; subst h2; subst h3
          rw [find?_eq_none_filter_nil _ _ hfind]
          simp [hq]

/-- C3: observation idempotence and uniqueness.  Starting from a table with
no row for `(station_id, date, hour)`, inserting two records with that key
leaves exactly one row for the key; its measurement fields, `timestamp` and
`updated_at` come from the second insert while `created_at` (and the
station identity columns) are preserved from the first insert.  Moreover
every insert preserves the `UNIQUE(station_id, date, hour)` invariant. -/
theorem weather_upsert_spec (table : List WeatherRow) (d1 d2 : WeatherInput)
    (date : String) (hour : Nat) (now1 now2 : String)
    (hsid : d2.station_id = d1.station_id)
    (hnone : table.find? (obsKeyMatches d1.station_id date hour) = none) :
    (((insert_or_update_weather_row (insert_or_update_weather_row table d1 date hour now1)
          d2 date hour now2).filter (obsKeyMatches d1.station_id date hour)).length = 1 ∧
      (insert_or_update_weather_row (insert_or_update_weather_row table d1 date hour now1)
          d2 date hour now2).find? (obsKeyMatches d1.station_id date hour) =
        some (applyConflictUpdate d2 now2 (freshWeatherRow d1 date hour now1)) ∧
      (applyConflictUpdate d2 now2 (freshWeatherRow d1 date hour now1)).created_at = now1 ∧
      (applyConflictUpdate d2 now2 (freshWeatherRow d1 date hour now1)).temperature
        = d2.temperature ∧
      (applyConflictUpdate d2 now2 (freshWeatherRow d1 date hour now1)).updated_at = now2) ∧
    (∀ (t : List WeatherRow) (d : WeatherInput) (dt : String) (hr : Nat) (nw : String),
      uniqueObsKeys t → uniqueObsKeys (insert_or_update_weather_row t d dt hr nw)) := by
  have hkey1 : obsKeyMatches d1.station_id date hour (freshWeatherRow d1 date hour now1) = true := by
    simp [obsKeyMatches, freshWeatherRow]
  have ht1 : insert_or_update_weather_row table d1 date hour now1 =
      table ++ [freshWeatherRow d1 date hour now1] := by
    unfold insert_or_update_weather_row
    rw [hnone]
  have hfind1 : (insert_or_update_weather_row table d1 date hour now1).find?
      (obsKeyMatches d2.station_id date hour) = some (freshWeatherRow d1 date hour now1) := by
    rw [ht1, hsid, List.find?_append, hnone]
    simp [hkey1]
  have hpres : ∀ a, obsKeyMatches d2.station_id date hour a = true →
      obsKeyMatches d2.station_id date hour (applyConflictUpdate d2 now2 a) = true :=
    fun a ha => ha
  have ht2' : ∀ t1 : List WeatherRow,
      t1.find? (obsKeyMatches d2.station_id date hour) =
        some (freshWeatherRow d1 date hour now1) →
      insert_or_update_weather_row t1 d2 date hour now2 =
        t1.map fun r =>
          if obsKeyMatches d2.station_id date hour r then applyConflictUpdate d2 now2 r else r := by
    intro t1 h
    unfold insert_or_update_weather_row
    rw [h]
  have ht2 := ht2' _ hfind1
  refine ⟨⟨?_, ?_, rfl, rfl, rfl⟩, insert_preserves_uniqueObsKeys⟩
  · rw [ht2, ← hsid, filter_length_map_update (obsKeyMatches d2.station_id date hour)
      (obsKeyMatches d2.station_id date hour) (applyConflictUpdate d2 now2) (fun a => rfl)]
    rw [ht1, hsid, List.filter_append, find?_eq_none_filter_nil _ _ hnone]
    simp [hkey1]
  · have hkey2 : obsKeyMatches d2.station_id date hour (freshWeatherRow d1 date hour now1) = true := by
      rw [hsid]; exact hkey1
    rw [ht2, ← hsid, find?_map_update _ _ hpres, hfind1]
    simp [hkey2]

/-- C3 witness: inserting `(station 1, 2024-06-15, hour 12)` twice with
different measurements leaves one row whose measurements come from the
second insert while `created_at` stays from the first. -/
theorem weather_upsert_witness :
    (insert_or_update_weather_row
        (insert_or_update_weather_row []
          ⟨1, "S1", "R", some 9, some (-79), some 100, "2024-06-15T12:00:00+00:00",
            some 25, some 26, some 80, some 10, some "N", some 90, some 2, some "rain",
            some 1010, some 50, some "s", some "i"⟩ "2024-06-15" 12 "c1")
        ⟨1, "S1", "R", some 9, some (-79), some 100, "2024-06-15T12:40:00+00:00",
          some 30, some 31, some 70, some 12, some "S", some 180, some 4, some "rain",
          some 1008, some 60, some "s2", some "i2"⟩ "2024-06-15" 12 "c2").find?
      (obsKeyMatches 1 "2024-06-15" 12) =
    some ⟨1, "S1", "R", some 9, some (-79), some 100, "2024-06-15", 12,
          "2024-06-15T12:40:00+00:00", some 30, some 31, some 70, some 12, some "S",
          some 180, some 4, some "rain", some 1008, some 60, some "s2", some "i2",
          "c1", "c2"⟩ := by
  have h := weather_upsert_spec []
      ⟨1, "S1", "R", some 9, some (-79), some 100, "2024-06-15T12:00:00+00:00",
        some 25, some 26, some 80, some 10, some "N", some 90, some 2, some "rain",
        some 1010, some 50, some "s", some "i"⟩
      ⟨1, "S1", "R", some 9, some (-79), some 100, "2024-06-15T12:40:00+00:00",
        some 30, some 31, some 70, some 12, some "S", some 180, some 4, some "rain",
        some 1008, some 60, some "s2", some "i2"⟩
      "2024-06-15" 12 "c1" "c2" rfl rfl
  exact h.1.2.1

/-! ## Risk analyzer (`risk_analyzer.RiskAnalyzer`) -/

/-- The `RiskLevel` enum of `risk_analyzer.py`. -/
inductive RiskLevel where
  | bajo
  | moderado
  | alto
  | critico
deriving DecidableEq, Repr

/-- The five metrics a `weather_hourly` record contributes to the analyzer
(the analyzer accesses the record dictionary only through these keys). -/
structure ObsMetrics where
  temperature : Option ℚ
  humidity : Option ℚ
  precipitation_total : Option ℚ
  wind_speed : Option ℚ
  pressure : Option ℚ
deriving DecidableEq, Repr

/-- Mean of the non-null values of one metric over the historical records
(a key is present in `_calculate_averages`'s result iff some value was
non-null). -/
def avgOf (vals : List ℚ) : Option ℚ :=
  match vals with
  | [] => none
  | _ => some (vals.sum / vals.length)

/-- Embeds `RiskAnalyzer._calculate_averages` (on empty input the resulting empty
dictionary is represented by all-`none` fields). -/
def calculateAverages (data : List ObsMetrics) : ObsMetrics :=
  { temperature := avgOf (data.filterMap (·.temperature)),
    humidity := avgOf (data.filterMap (·.humidity)),
    precipitation_total := avgOf (data.filterMap (·.precipitation_total)),
    wind_speed := avgOf (data.filterMap (·.wind_speed)),
    pressure := avgOf (data.filterMap (·.pressure)) }

/-- Embeds `RiskAnalyzer._analyze_temperature`: absolute thresholds 38/35/32, and a
bump to at least 50 when the current value exceeds a truthy (non-zero)
historical average by more than 5. -/
def analyze_temperature (current hist : Option ℚ) : Option (ℚ × String) :=
  match current with
  | none => none
  | some c =>
      let base : ℚ × String :=
        if 38 ≤ c then (90, "critical")
        else if 35 ≤ c then (70, "high")
        else if 32 ≤ c then (40, "moderate")
        else (0, "normal")
      let score : ℚ :=
        match hist with
        | some h => if h ≠ 0 ∧ 5 < c - h then max base.1 50 else base.1
        | none => base.1
      some (score, base.2)

/-- Embeds `RiskAnalyzer._analyze_humidity`: thresholds 95/90 high side, `< 60`
low side. -/
def analyze_humidity (current : Option ℚ) : Option (ℚ × String) :=
  match current with
  | none => none
  | some c =>
      if 95 ≤ c then some (80, "critical")
      else if 90 ≤ c then some (60, "high")
      else if c < 60 then some (30, "moderate")
      else some (0, "normal")

/-- Embeds `RiskAnalyzer._analyze_precipitation`: thresholds 30/15/5 and a "low"
band for any positive rain. -/
def analyze_precipitation (current : Option ℚ) : Option (ℚ × String) :=
  match current with
  | none => none
  | some c =>
      if 30 ≤ c then some (95, "critical")
      else if 15 ≤ c then some (75, "high")
      else if 5 ≤ c then some (50, "moderate")
      else if 0 < c then some (20, "low")
      else some (0, "normal")

/-- Embeds `RiskAnalyzer._analyze_wind`: thresholds 60/40/20. -/
def analyze_wind (current : Option ℚ) : Option (ℚ × String) :=
  match current with
  | none => none
  | some c =>
      if 60 ≤ c then some (85, "critical")
      else if 40 ≤ c then some (65, "high")
      else if 20 ≤ c then some (40, "moderate")
      else some (0, "normal")

/-- Embeds `RiskAnalyzer._analyze_pressure`: low-pressure thresholds 1005/1010/1013. -/
def analyze_pressure (current : Option ℚ) : Option (ℚ × String) :=
  match current with
  | none => none
  | some c =>
      if c ≤ 1005 then some (80, "critical")
      else if c ≤ 1010 then some (55, "high")
      else if c < 1013 then some (30, "moderate")
      else some (0, "normal")

/-- Embeds `RiskAnalyzer._calculate_risk_level`. -/
def calculate_risk_level (score : ℚ) : RiskLevel :=
  if 80 ≤ score then .critico
  else if 60 ≤ score then .alto
  else if 30 ≤ score then .moderado
  else .bajo

/-- Python `max(risk_scores) if risk_scores else 0`. -/
def overallScore (scores : List ℚ) : ℚ :=
  match scores with
  | [] => 0
  | s :: rest => rest.foldl max s

/-- Python `round(x, 2)`; every reachable factor score is an integer, for
which any tie-breaking convention of `round` coincides with this one. -/
def roundTo2 (q : ℚ) : ℚ := (⌊q * 100 + 1/2⌋ : ℚ) / 100

/-- The analyzer's result (`RiskAnalysis` fields the claims are about;
each factor carries its metric name, score and severity). -/
structure RiskResult where
  risk_score : ℚ
  risk_level : RiskLevel
  factors : List (String × ℚ × String)
deriving DecidableEq, Repr

/-- Embeds `RiskAnalyzer.analyze_station_risk` on the most-recent-first record
list: `None` on no data, else the first record is current, the remainder
form the historical baseline, each present metric contributes one factor,
and the overall score is the maximum of the factor scores. -/
def analyze_station_risk (records : List ObsMetrics) : Option RiskResult :=
  match records with
  | [] => none
  | current :: rest =>
      let hist := calculateAverages rest
      let fs : List (String × Option (ℚ × String)) :=
        [("temperature", analyze_temperature current.temperature hist.temperature),
         ("humidity", analyze_humidity current.humidity),
         ("precipitation", analyze_precipitation current.precipitation_total),
         ("wind", analyze_wind current.wind_speed),
         ("pressure", analyze_pressure current.pressure)]
      let factors := fs.filterMap fun ns => ns.2.map fun sv => (ns.1, sv.1, sv.2)
      let overall := overallScore (factors.map fun f => f.2.1)
      some { risk_score := roundTo2 overall,
             risk_level := calculate_risk_level overall,
             factors := factors }

/-- Score of an optional factor, `0` when the factor is absent. -/
def factorScore (o : Option (ℚ × String)) : ℚ := (o.map Prod.fst).getD 0

theorem roundTo2_intCast (n : ℤ) : roundTo2 (n : ℚ) = n := by
  have h : (n : ℚ) * 100 + 1/2 = ((100 * n : ℤ) : ℚ) + (1/2 : ℚ) := by push_cast; ring
  have hfloor : ⌊((100 * n : ℤ) : ℚ) + (1/2 : ℚ)⌋ = 100 * n + ⌊(1/2 : ℚ)⌋ :=
    Int.floor_int_add (100 * n) (1/2 : ℚ)
  have hhalf : ⌊(1/2 : ℚ)⌋ = 0 := by
    rw [Int.floor_eq_zero_iff]
    constructor <;> norm_num
  rw [roundTo2, h, hfloor, hhalf]
  push_cast
  ring

theorem analyze_temperature_int (c : ℚ) (hist : Option ℚ) :
    ∃ (n : ℤ) (sev : String), analyze_temperature (some c) hist = some ((n : ℚ), sev) := by
  unfold analyze_temperature
  cases hist with
  | none =>
      dsimp only
      split_ifs
      · exact ⟨90, "critical", by norm_num⟩
      · exact ⟨70, "high", by norm_num⟩
      · exact ⟨40, "moderate", by norm_num⟩
      · exact ⟨0, "normal", by norm_num⟩
  | some hv =>
      dsimp only
      split_ifs
      · exact ⟨90, "critical", by norm_num [max_def]⟩
      · exact ⟨70, "high", by norm_num [max_def]⟩
      · exact ⟨50, "moderate", by norm_num [max_def]⟩
      · exact ⟨50, "normal", by norm_num [max_def]⟩
      · exact ⟨90, "critical", by norm_num⟩
      · exact ⟨70, "high", by norm_num⟩
      · exact ⟨40, "moderate", by norm_num⟩
      · exact ⟨0, "normal", by norm_num⟩

theorem analyze_humidity_int (c : ℚ) :
    ∃ (n : ℤ) (sev : String), analyze_humidity (some c) = some ((n : ℚ), sev) := by
  unfold analyze_humidity
  dsimp only
  split_ifs
  · exact ⟨80, "critical", by norm_num⟩
  · exact ⟨60, "high", by norm_num⟩
  · exact ⟨30, "moderate", by norm_num⟩
  · exact ⟨0, "normal", by norm_num⟩

theorem analyze_precipitation_int (c : ℚ) :
    ∃ (n : ℤ) (sev : String), analyze_precipitation (some c) = some ((n : ℚ), sev) := by
  unfold analyze_precipitation
  dsimp only
  split_ifs
  · exact ⟨95, "critical", by norm_num⟩
  · exact ⟨75, "high", by norm_num⟩
  · exact ⟨50, "moderate", by norm_num⟩
  · exact ⟨20, "low", by norm_num⟩
  · exact ⟨0, "normal", by norm_num⟩

theorem analyze_wind_int (c : ℚ) :
    ∃ (n : ℤ) (sev : String), analyze_wind (some c) = some ((n : ℚ), sev) := by
  unfold analyze_wind
  dsimp only
  split_ifs
  · exact ⟨85, "critical", by norm_num⟩
  · exact ⟨65, "high", by norm_num⟩
  · exact ⟨40, "moderate", by norm_num⟩
  · exact ⟨0, "normal", by norm_num⟩

theorem analyze_pressure_int (c : ℚ) :
    ∃ (n : ℤ) (sev : String), analyze_pressure (some c) = some ((n : ℚ), sev) := by
  unfold analyze_pressure
  dsimp only
  split_ifs
  · exact ⟨80, "critical", by norm_num⟩
  · exact ⟨55, "high", by norm_num⟩
  · exact ⟨30, "moderate", by norm_num⟩
  · exact ⟨0, "normal", by norm_num⟩

/-- C4: when the current reading has all five metrics, the analyzer's
overall `risk_score` is the maximum of the five per-metric factor scores
(not their sum or average), and the overall level follows the thresholds
`< 30` bajo, `30–59` moderado, `60–79` alto, `≥ 80` critico. -/
theorem analyzer_overall_is_max (t h p w pr : ℚ) (rest : List ObsMetrics) :
    (∃ res, analyze_station_risk (⟨some t, some h, some p, some w, some pr⟩ :: rest) = some res ∧
      res.risk_score =
        max (max (max (max
          (factorScore (analyze_temperature (some t) (calculateAverages rest).temperature))
          (factorScore (analyze_humidity (some h))))
          (factorScore (analyze_precipitation (some p))))
          (factorScore (analyze_wind (some w))))
          (factorScore (analyze_pressure (some pr))) ∧
      res.risk_level = calculate_risk_level res.risk_score) ∧
    (∀ s : ℚ, (s < 30 → calculate_risk_level s = .bajo) ∧
      (30 ≤ s → s < 60 → calculate_risk_level s = .moderado) ∧
      (60 ≤ s → s < 80 → calculate_risk_level s = .alto) ∧
      (80 ≤ s → calculate_risk_level s = .critico)) := by
  constructor
  · obtain ⟨nt, sevt, ht⟩ := analyze_temperature_int t (calculateAverages rest).temperature
    obtain ⟨nh, sevh, hh⟩ := analyze_humidity_int h
    obtain ⟨np, sevp, hp⟩ := analyze_precipitation_int p
    obtain ⟨nw, sevw, hw⟩ := analyze_wind_int w
    obtain ⟨npr, sevpr, hpr⟩ := analyze_pressure_int pr
    have hM : max (max (max (max
        (factorScore (analyze_temperature (some t) (calculateAverages rest).temperature))
        (factorScore (analyze_humidity (some h))))
        (factorScore (analyze_precipitation (some p))))
        (factorScore (analyze_wind (some w))))
        (factorScore (analyze_pressure (some pr))) =
        ((max (max (max (max nt nh) np) nw) npr : ℤ) : ℚ) := by
      rw [ht, hh, hp, hw, hpr]
      simp only [factorScore, Option.map_some', Option.getD_some]
      push_cast
      rfl
    refine ⟨_, rfl, ?_, ?_⟩
    · show roundTo2 (overallScore _) = _
      rw [hM]
      have hov : overallScore (List.map (fun f => f.2.1)
          (List.filterMap (fun ns => Option.map (fun sv => (ns.1, sv.1, sv.2)) ns.2)
            [("temperature", analyze_temperature (some t) (calculateAverages rest).temperature),
             ("humidity", analyze_humidity (some h)),
             ("precipitation", analyze_precipitation (some p)),
             ("wind", analyze_wind (some w)),
             ("pressure", analyze_pressure (some pr))])) =
          ((max (max (max (max nt nh) np) nw) npr : ℤ) : ℚ) := by
        rw [ht, hh, hp, hw, hpr]
        simp only [List.filterMap, Option.map_some', List.map]
        show overallScore [(nt : ℚ), (nh : ℚ), (np : ℚ), (nw : ℚ), (npr : ℚ)] = _
        simp only [overallScore, List.foldl]
        push_cast
        rfl
      rw [hov, roundTo2_intCast]
    · show calculate_risk_level (overallScore _) = calculate_risk_level (roundTo2 (overallScore _))
      congr 1
      have hov : overallScore (List.map (fun f => f.2.1)
          (List.filterMap (fun ns => Option.map (fun sv => (ns.1, sv.1, sv.2)) ns.2)
            [("temperature", analyze_temperature (some t) (calculateAverages rest).temperature),
             ("humidity", analyze_humidity (some h)),
             ("precipitation", analyze_precipitation (some p)),
             ("wind", analyze_wind (some w)),
             ("pressure", analyze_pressure (some pr))])) =
          ((max (max (max (max nt nh) np) nw) npr : ℤ) : ℚ) := by
        rw [ht, hh, hp, hw, hpr]
        simp only [List.filterMap, Option.map_some', List.map]
        show overallScore [(nt : ℚ), (nh : ℚ), (np : ℚ), (nw : ℚ), (npr : ℚ)] = _
        simp only [overallScore, List.foldl]
        push_cast
        rfl
      rw [hov, roundTo2_intCast]
  · intro s
    refine ⟨?_, ?_, ?_, ?_⟩ <;> intros <;> unfold calculate_risk_level <;>
      split_ifs <;> first | rfl | linarith

/-- C4 witness: the spec's max-not-sum example — current reading with
`precipitation_total = 35` (critical, score 95) and every other metric in
its normal band yields `risk_score = 95` and `risk_level = critico`. -/
theorem analyzer_overall_witness :
    (analyze_station_risk [⟨some 28, some 65, some 35, some 10, some 1015⟩]).map
        (fun r => (r.risk_score, r.risk_level)) = some (95, RiskLevel.critico) := by
  obtain ⟨res, hres, hscore, hlevel⟩ := (analyzer_overall_is_max 28 65 35 10 1015 []).1
  rw [hres, Option.map_some']
  have h1 : factorScore (analyze_temperature (some 28) (calculateAverages []).temperature) = 0 := by
    norm_num [calculateAverages, avgOf, analyze_temperature, factorScore, List.filterMap]
  have h2 : factorScore (analyze_humidity (some 65)) = 0 := by
    norm_num [analyze_humidity, factorScore]
  have h3 : factorScore (analyze_precipitation (some 35)) = 95 := by
    norm_num [analyze_precipitation, factorScore]
  have h4 : factorScore (analyze_wind (some 10)) = 0 := by
    norm_num [analyze_wind, factorScore]
  have h5 : factorScore (analyze_pressure (some 1015)) = 0 := by
    norm_num [analyze_pressure, factorScore]
  rw [h1, h2, h3, h4, h5] at hscore
  have hs : res.risk_score = 95 := by
    rw [hscore]; norm_num [max_def]
  rw [hlevel, hs]
  norm_num [calculate_risk_level]

/-! ## Spatial incident correlation
(`incident_correlation.get_incident_training_data`) -/

/-- A row of the `incident_reports` table (fields the correlation uses). -/
structure Incident where
  id : Int
  incident_type : String
  severity : String
  latitude : ℚ
  longitude : ℚ
  reported_at : String
deriving DecidableEq, Repr

/-- Gaussian distance decay `math.exp(-(distance / 20) ** 2)` computed per
nearby station in `get_incident_training_data`. -/
noncomputable def impact (d : ℝ) : ℝ := Real.exp (-(d / 20) ^ 2)

/-- The map `severity_map` (low 0.3, medium 0.6, high 0.9) read with
`.get(severity, 0.6)` defaulting unknown severities to medium. -/
def severityBase (sev : String) : ℝ :=
  if sev = "low" then 0.3
  else if sev = "medium" then 0.6
  else if sev = "high" then 0.9
  else 0.6

/-- The product `adjusted_severity = base_severity * distance_factor`. -/
noncomputable def adjustedSeverity (sev : String) (d : ℝ) : ℝ :=
  severityBase sev * impact d

/-- One training sample as assembled in `get_incident_training_data`. -/
structure Sample where
  temperature : ℚ
  humidity : ℚ
  precipitation_total : ℚ
  wind_speed : ℚ
  pressure : ℚ
  temp_change : ℚ
  humidity_change : ℚ
  precip_change : ℚ
  wind_change : ℚ
  pressure_change : ℚ
  flood_risk : ℝ
  drought_risk : ℝ
  incident_id : Int
  station_id : Int
  distance_km : ℝ
  impact_factor : ℝ

/-- Sample construction for one `(incident, nearby station)` pair once a
weather record has been selected: features from the record (missing values
default to `0`, pressure to `1013`), the label of the reported hazard type
is `adjusted_severity`, the other hazard's label is `0.0`. -/
noncomputable def mkSample (inc : Incident) (sid : Int) (d : ℝ) (w : WeatherRow) : Sample :=
  { temperature := w.temperature.getD 0,
    humidity := w.humidity.getD 0,
    precipitation_total := w.precipitation_total.getD 0,
    wind_speed := w.wind_speed.getD 0,
    pressure := w.pressure.getD 1013,
    temp_change := 0, humidity_change := 0, precip_change := 0,
    wind_change := 0, pressure_change := 0,
    flood_risk := if inc.incident_type = "flood" then adjustedSeverity inc.severity d else 0,
    drought_risk := if inc.incident_type = "drought" then adjustedSeverity inc.severity d else 0,
    incident_id := inc.id, station_id := sid,
    distance_km := d, impact_factor := impact d }

/-- C5: for every incident and qualifying nearby station at distance `d`,
the sample's label for the reported hazard type is
`base_severity * exp(-(d/20)^2)` with base 0.3/0.6/0.9 for low/medium/high,
the other hazard's label is `0.0`, and the spec's example holds:
severity high at 20 km gives label `0.9 * exp(-1) ≈ 0.3312`. -/
theorem incident_label_spec (inc : Incident) (sid : Int) (d : ℝ) (w : WeatherRow) :
    (severityBase "low" = 0.3 ∧ severityBase "medium" = 0.6 ∧ severityBase "high" = 0.9) ∧
    (inc.incident_type = "flood" →
      (mkSample inc sid d w).flood_risk = severityBase inc.severity * Real.exp (-(d / 20) ^ 2) ∧
      (mkSample inc sid d w).drought_risk = 0) ∧
    (inc.incident_type = "drought" →
      (mkSample inc sid d w).drought_risk = severityBase inc.severity * Real.exp (-(d / 20) ^ 2) ∧
      (mkSample inc sid d w).flood_risk = 0) ∧
    (severityBase "high" * impact 20 = 0.9 * Real.exp (-1) ∧
      |0.9 * Real.exp (-1) - 0.3312| < 1/1000) := by
  have hbl : severityBase "low" = 0.3 := rfl
  have hbm : severityBase "medium" = 0.6 := rfl
  have hbh : severityBase "high" = 0.9 := rfl
  refine ⟨⟨hbl, hbm, hbh⟩, ?_, ?_, ?_, ?_⟩
  · intro hty
    constructor
    · simp [mkSample, adjustedSeverity, impact, hty]
    · simp [mkSample, hty]
  · intro hty
    constructor
    · simp [mkSample, adjustedSeverity, impact, hty]
    · simp [mkSample, hty]
  · have h20 : impact 20 = Real.exp (-1) := by
      unfold impact
      norm_num
    rw [h20, hbh]
  · have hmul : Real.exp (-1) * Real.exp 1 = 1 := by
      rw [← Real.exp_add]
      norm_num [Real.exp_zero]
    have he1 := Real.exp_one_gt_d9
    have he2 := Real.exp_one_lt_d9
    have hpos : (0:ℝ) < Real.exp (-1) := Real.exp_pos _
    rw [abs_lt]
    constructor <;> nlinarith [hmul, he1, he2, hpos]

/-- C5 witness: a severity-high flood incident with a station at 20 km
produces a sample with flood label `0.9 * exp(-1)` and drought label `0`. -/
theorem incident_label_witness :
    (mkSample ⟨7, "flood", "high", 9, -79, "2024-06-15T12:30:00+00:00"⟩ 1 20
        (freshWeatherRow
          ⟨1, "S1", "R", some 9, some (-79), some 100, "2024-06-15T12:00:00+00:00",
            some 25, some 26, some 80, some 10, some "N", some 90, some 2, some "rain",
            some 1010, some 50, some "s", some "i"⟩ "2024-06-15" 12 "c1")).flood_risk =
      0.9 * Real.exp (-1) ∧
    (mkSample ⟨7, "flood", "high", 9, -79, "2024-06-15T12:30:00+00:00"⟩ 1 20
        (freshWeatherRow
          ⟨1, "S1", "R", some 9, some (-79), some 100, "2024-06-15T12:00:00+00:00",
            some 25, some 26, some 80, some 10, some "N", some 90, some 2, some "rain",
            some 1010, some 50, some "s", some "i"⟩ "2024-06-15" 12 "c1")).drought_risk = 0 := by
  obtain ⟨⟨_, _, hbase⟩, hflood, _, hex, _⟩ :=
    incident_label_spec ⟨7, "flood", "high", 9, -79, "2024-06-15T12:30:00+00:00"⟩ 1 20
      (freshWeatherRow
        ⟨1, "S1", "R", some 9, some (-79), some 100, "2024-06-15T12:00:00+00:00",
          some 25, some 26, some 80, some 10, some "N", some 90, some 2, some "rain",
          some 1010, some 50, some "s", some "i"⟩ "2024-06-15" 12 "c1")
  obtain ⟨h1, h2⟩ := hflood rfl
  refine ⟨?_, h2⟩
  rw [h1]
  have h20 : Real.exp (-((20:ℝ) / 20) ^ 2) = Real.exp (-1) := by norm_num
  rw [hbase, h20]

/-! C9: the Gaussian decay used for incident weighting. -/

/-- The identity `exp 6.25 ^ 4 = exp 25`, used to bound `impact 50 = exp (-6.25)`. -/
theorem exp_625_pow_four : Real.exp 6.25 ^ 4 = Real.exp 25 := by
  rw [← Real.exp_nat_mul]
  norm_num

theorem exp_25_eq : Real.exp 25 = Real.exp 1 ^ 25 := by
  rw [← Real.exp_nat_mul]
  norm_num

theorem exp_625_lt_714 : Real.exp 6.25 < 714 := by
  have h4 : Real.exp 6.25 ^ 4 < 714 ^ 4 := by
    rw [exp_625_pow_four, exp_25_eq]
    calc Real.exp 1 ^ 25 < 2.7182818286 ^ 25 := by
          have := Real.exp_one_lt_d9
          exact pow_lt_pow_left₀ this (Real.exp_pos 1).le (by norm_num)
      _ < 714 ^ 4 := by norm_num
  exact lt_of_pow_lt_pow_left₀ 4 (by norm_num) h4

theorem exp_625_gt_417 : (417:ℝ) < Real.exp 6.25 := by
  have h4 : (417:ℝ) ^ 4 < Real.exp 6.25 ^ 4 := by
    rw [exp_625_pow_four, exp_25_eq]
    calc (417:ℝ) ^ 4 < 2.7182818283 ^ 25 := by norm_num
      _ < Real.exp 1 ^ 25 := by
          have := Real.exp_one_gt_d9
          exact pow_lt_pow_left₀ this (by norm_num) (by norm_num)
  exact lt_of_pow_lt_pow_left₀ 4 (Real.exp_pos _).le h4

theorem impact_50_eq : impact 50 = Real.exp (-6.25) := by
  unfold impact
  norm_num

/-- C9 counterexample: the claim asserts `impact(50) ≈ 0.00034`, but
`impact 50 = exp(-6.25) ≈ 0.00193` misses `0.00034` by more than `0.001`
(three times the claimed value itself). -/
theorem impact50_not_000034 : ¬ (|impact 50 - 0.00034| ≤ 0.001) := by
  rw [impact_50_eq]
  have h714 := exp_625_lt_714
  have hmul : Real.exp (-6.25) * Real.exp 6.25 = 1 := by
    rw [← Real.exp_add]
    norm_num [Real.exp_zero]
  have hpos : (0:ℝ) < Real.exp (-6.25) := Real.exp_pos _
  have hgt : (1:ℝ)/714 < Real.exp (-6.25) := by
    rw [div_lt_iff₀ (by norm_num)]
    nlinarith [hmul, h714, hpos]
  rw [not_le, lt_abs]
  left
  nlinarith [hgt]

/-- C9 amended: `impact(d) = exp(-(d/20)^2)` is strictly decreasing on
`[0, 50]`, `impact 0 = 1`, and `impact 50 ≈ 0.0019` (not `0.00034`). -/
theorem impact_decay_spec :
    (∀ d1 d2 : ℝ, 0 ≤ d1 → d1 < d2 → d2 ≤ 50 → impact d2 < impact d1) ∧
    impact 0 = 1 ∧ |impact 50 - 0.0019| < 0.0005 := by
  refine ⟨?_, ?_, ?_⟩
  · intro d1 d2 h0 h12 _
    unfold impact
    rw [Real.exp_lt_exp]
    nlinarith
  · unfold impact
    norm_num [Real.exp_zero]
  · rw [impact_50_eq]
    have h714 := exp_625_lt_714
    have h417 := exp_625_gt_417
    have hmul : Real.exp (-6.25) * Real.exp 6.25 = 1 := by
      rw [← Real.exp_add]
      norm_num [Real.exp_zero]
    have hpos : (0:ℝ) < Real.exp (-6.25) := Real.exp_pos _
    rw [abs_lt]
    constructor <;> nlinarith [hmul, h714, h417, hpos]

/-- C9 witness: decay is strict between 10 km and 30 km. -/
theorem impact_decay_witness : impact 30 < impact 10 :=
  impact_decay_spec.1 10 30 (by norm_num) (by norm_num) (by norm_num)

/-! ## SQLite TEXT comparison

SQLite compares `TEXT` values with `memcmp` (BINARY collation); on the
ASCII dates and timestamps stored here that is the lexicographic order on
code points. -/

/-- Lexicographic strict comparison of character lists by code point
(`memcmp` on ASCII). -/
def sqlLtB : List Char → List Char → Bool
  | [], [] => false
  | [], _ :: _ => true
  | _ :: _, [] => false
  | a :: as, b :: bs =>
      if a.toNat < b.toNat then true
      else if b.toNat < a.toNat then false
      else sqlLtB as bs

/-- Strict comparison `x < y` of SQLite TEXT values. -/
def sqlLt (x y : String) : Bool := sqlLtB x.data y.data

/-- Comparison `x <= y` of SQLite TEXT values. -/
def sqlLe (x y : String) : Bool := !(sqlLtB y.data x.data)

theorem sqlLtB_asymm : ∀ a b : List Char, sqlLtB a b = true → sqlLtB b a = false
  | [], [], h => by simp [sqlLtB] at h
  | [], _ :: _, _ => rfl
  | _ :: _, [], h => by simp [sqlLtB] at h
  | x :: xs, y :: ys, h => by
      by_cases h1 : x.toNat < y.toNat
      · simp [sqlLtB, h1, Nat.lt_asymm h1, Nat.not_lt.mpr (Nat.le_of_lt h1)]
      · by_cases h2 : y.toNat < x.toNat
        · simp [sqlLtB, h1, h2] at h
        · simp only [sqlLtB, if_neg h1, if_neg h2] at h
          simp [sqlLtB, h1, h2, sqlLtB_asymm xs ys h]

theorem sqlLtB_trans_neg : ∀ a b c : List Char,
    sqlLtB b a = false → sqlLtB c b = false → sqlLtB c a = false
  | [], _, [], _, _ => rfl
  | _ :: _, [], [], h1, _ => by simp [sqlLtB] at h1
  | _ :: _, _ :: _, [], _, h2 => by simp [sqlLtB] at h2
  | [], _, _ :: _, _, _ => rfl
  | _ :: _, [], _ :: _, h1, _ => by simp [sqlLtB] at h1
  | x :: xs, y :: ys, z :: zs, h1, h2 => by
      simp only [sqlLtB] at h1 h2 ⊢
      by_cases hzy : z.toNat < y.toNat
      · simp [hzy] at h2
      · by_cases hyx : y.toNat < x.toNat
        · simp [hyx] at h1
        · by_cases hzx : z.toNat < x.toNat
          · omega
          · by_cases hxz : x.toNat < z.toNat
            · simp [hzx, hxz]
            · have hxy : ¬x.toNat < y.toNat := by omega
              have hyz : ¬y.toNat < z.toNat := by omega
              simp only [if_neg hyx, if_neg hxy] at h1
              simp only [if_neg hzy, if_neg hyz] at h2
              simp only [if_neg hzx, if_neg hxz]
              exact sqlLtB_trans_neg xs ys zs h1 h2

/-! ## Forecast store (`weather_forecast` table,
`raindrop_db.get_forecast_by_station`) -/

/-- A row of the `weather_forecast` table (the columns the retrieval logic
reads; the remaining weather columns do not influence it).  Unique per
`(station_id, forecast_date)`. -/
structure ForecastRow where
  station_id : Int
  forecast_date : String
  flood_probability : ℚ
  drought_probability : ℚ
deriving DecidableEq, Repr

/-- The relation `ORDER BY forecast_date ASC` sorts by. -/
def forecastDateAsc (a b : ForecastRow) : Prop :=
  sqlLe a.forecast_date b.forecast_date = true

/-- The relation `ORDER BY forecast_date DESC` sorts by. -/
def forecastDateDesc (a b : ForecastRow) : Prop :=
  sqlLe b.forecast_date a.forecast_date = true

instance : DecidableRel forecastDateAsc := fun _ _ => instDecidableEqBool _ _

instance : DecidableRel forecastDateDesc := fun _ _ => instDecidableEqBool _ _

instance : IsTotal ForecastRow forecastDateAsc where
  total a b := by
    unfold forecastDateAsc sqlLe
    by_cases h : sqlLtB b.forecast_date.data a.forecast_date.data = true
    · exact Or.inr (by simp [sqlLtB_asymm _ _ h])
    · exact Or.inl (by simp [Bool.not_eq_true] at h; simp [h])

instance : IsTotal ForecastRow forecastDateDesc where
  total a b := by
    unfold forecastDateDesc sqlLe
    by_cases h : sqlLtB b.forecast_date.data a.forecast_date.data = true
    · exact Or.inl (by simp [sqlLtB_asymm _ _ h])
    · exact Or.inr (by simp [Bool.not_eq_true] at h; simp [h])

instance : IsTrans ForecastRow forecastDateAsc where
  trans a b c hab hbc := by
    unfold forecastDateAsc sqlLe at *
    simp only [Bool.not_eq_true'] at *
    exact sqlLtB_trans_neg _ _ _ hab hbc

instance : IsTrans ForecastRow forecastDateDesc where
  trans a b c hab hbc := by
    unfold forecastDateDesc sqlLe at *
    simp only [Bool.not_eq_true'] at *
    exact sqlLtB_trans_neg _ _ _ hbc hab

/-- The condition `flood_probability > 0.0 OR drought_probability > 0.0`. -/
def nonzeroRisk (r : ForecastRow) : Bool :=
  decide (0 < r.flood_probability) || decide (0 < r.drought_probability)

/-- Primary query of `get_forecast_by_station`: `WHERE station_id = ? AND
forecast_date >= today ORDER BY forecast_date ASC LIMIT days`. -/
def primaryForecastRows (table : List ForecastRow) (sid : Int) (today : String)
    (days : Nat) : List ForecastRow :=
  (List.insertionSort forecastDateAsc
    (table.filter fun r => r.station_id == sid && sqlLe today r.forecast_date)).take days

/-- Fallback query of `get_forecast_by_station`: `WHERE station_id = ? AND
(flood_probability > 0.0 OR drought_probability > 0.0) ORDER BY
forecast_date DESC LIMIT days`. -/
def fallbackForecastRows (table : List ForecastRow) (sid : Int) (days : Nat) :
    List ForecastRow :=
  (List.insertionSort forecastDateDesc
    (table.filter fun r => r.station_id == sid && nonzeroRisk r)).take days

/-- Embeds `raindrop_db.get_forecast_by_station`: run the primary query; if it
returns no rows, or no returned row has a positive precomputed
probability, run the fallback query instead. -/
def get_forecast_by_station (table : List ForecastRow) (sid : Int) (today : String)
    (days : Nat) : List ForecastRow :=
  let rows := primaryForecastRows table sid today days
  if rows.isEmpty || !(rows.any nonzeroRisk) then fallbackForecastRows table sid days
  else rows

/-- The retrieval policy in the words of the specification: fall back
exactly when the primary result is empty or every returned row has both
probabilities equal to `0.0`. -/
def get_forecast_spec (table : List ForecastRow) (sid : Int) (today : String)
    (days : Nat) : List ForecastRow :=
  let primary := primaryForecastRows table sid today days
  if primary = [] ∨ ∀ r ∈ primary, r.flood_probability = 0 ∧ r.drought_probability = 0
  then fallbackForecastRows table sid days
  else primary

/-- C2: `get_forecast_by_station` refines the specification's retrieval
policy — on stores whose precomputed probabilities are nonnegative (they
are probabilities), the code's trigger "no returned row has a positive
probability" coincides with the spec's "every returned row has both
probabilities equal to 0.0"; the primary rows are ascending by date, the
fallback rows descending, and the result is limited to `days`. -/
theorem forecast_fallback_spec (table : List ForecastRow) (sid : Int) (today : String)
    (days : Nat)
    (hnn : ∀ r ∈ table, 0 ≤ r.flood_probability ∧ 0 ≤ r.drought_probability) :
    get_forecast_by_station table sid today days = get_forecast_spec table sid today days ∧
    List.Sorted forecastDateAsc (primaryForecastRows table sid today days) ∧
    List.Sorted forecastDateDesc (fallbackForecastRows table sid days) ∧
    (get_forecast_by_station table sid today days).length ≤ days := by
  have hmem : ∀ r ∈ primaryForecastRows table sid today days, r ∈ table := by
    intro r hr
    have h1 : r ∈ List.insertionSort forecastDateAsc
        (table.filter fun s => s.station_id == sid && sqlLe today s.forecast_date) :=
      List.mem_of_mem_take hr
    have h2 := (List.mem_insertionSort forecastDateAsc).mp h1
    exact (List.mem_filter.mp h2).1
  refine ⟨?_, ?_, ?_, ?_⟩
  · unfold get_forecast_by_station get_forecast_spec
    simp only
    by_cases hc : primaryForecastRows table sid today days = [] ∨
        ∀ r ∈ primaryForecastRows table sid today days,
          r.flood_probability = 0 ∧ r.drought_probability = 0
    · rw [if_pos hc]
      have hb : ((primaryForecastRows table sid today days).isEmpty
          || !((primaryForecastRows table sid today days).any nonzeroRisk)) = true := by
        rcases hc with hc | hc
        · simp [hc]
        · have hz : (primaryForecastRows table sid today days).any nonzeroRisk = false :=
            List.any_eq_false.mpr fun r hr => by
              simp [nonzeroRisk, (hc r hr).1, (hc r hr).2]
          simp [hz]
      rw [if_pos hb]
    · rw [if_neg hc]
      push_neg at hc
      obtain ⟨hne, r, hr, hrne⟩ := hc
      have hpos : 0 < r.flood_probability ∨ 0 < r.drought_probability := by
        obtain ⟨hf, hd⟩ := hnn r (hmem r hr)
        by_cases hf0 : r.flood_probability = 0
        · exact Or.inr (lt_of_le_of_ne hd (fun h => hrne hf0 h.symm))
        · exact Or.inl (lt_of_le_of_ne hf (fun h => hf0 h.symm))
      have hany : (primaryForecastRows table sid today days).any nonzeroRisk = true :=
        List.any_eq_true.mpr ⟨r, hr, by
          rcases hpos with h | h <;> simp [nonzeroRisk, h]⟩
      have hempty : (primaryForecastRows table sid today days).isEmpty = false := by
        simp [List.isEmpty_iff, hne]
      rw [if_neg (by simp [hany, hempty])]
  · exact List.Pairwise.sublist (List.take_sublist _ _)
      (List.sorted_insertionSort forecastDateAsc _)
  · exact List.Pairwise.sublist (List.take_sublist _ _)
      (List.sorted_insertionSort forecastDateDesc _)
  · unfold get_forecast_by_station
    simp only
    split
    · unfold fallbackForecastRows
      simp [List.length_take]
    · unfold primaryForecastRows
      simp [List.length_take]

/-- C2 witness: the spec's forecast-fallback example — today's row carries
zero probabilities and an older row carries `flood_probability = 2/5`;
`get_forecast` returns the old row, not today's zeroed row. -/
theorem forecast_fallback_witness :
    get_forecast_by_station
      [⟨1, "2024-06-15", 0, 0⟩, ⟨1, "2024-06-10", ⟨2, 5, by decide, by decide⟩, 0⟩]
      1 "2024-06-15" 7 =
    [⟨1, "2024-06-10", ⟨2, 5, by decide, by decide⟩, 0⟩] := by
  have h := (forecast_fallback_spec
      [⟨1, "2024-06-15", 0, 0⟩, ⟨1, "2024-06-10", ⟨2, 5, by decide, by decide⟩, 0⟩]
      1 "2024-06-15" 7 ?_).1
  · rw [h]
    decide
  · intro r hr
    rcases List.mem_cons.mp hr with h1 | h1
    · rw [h1]
      exact ⟨le_refl 0, le_refl 0⟩
    · rcases List.mem_cons.mp h1 with h2 | h2
      · rw [h2]
        refine ⟨by decide, le_refl 0⟩
      · simp at h2

/-! ## Observation retrieval for incident correlation
(`raindrop_db.get_data_by_date_range` and the per-station step of
`get_incident_training_data`) -/

/-- The relation `ORDER BY date, hour` sorts `weather_hourly` rows by. -/
def obsDateHourAsc (a b : WeatherRow) : Prop :=
  (sqlLt a.date b.date || (a.date == b.date && decide (a.hour ≤ b.hour))) = true

instance : DecidableRel obsDateHourAsc := fun _ _ => instDecidableEqBool _ _

/-- Embeds `raindrop_db.get_data_by_date_range` (station branch):
`SELECT * FROM weather_hourly WHERE date BETWEEN ? AND ? AND station_id = ?
ORDER BY date, hour`.  The bound parameters are whatever strings the caller
passes; the `date` column holds `YYYY-MM-DD` strings and SQLite compares
TEXT with `memcmp`. -/
def get_data_by_date_range (table : List WeatherRow) (startS endS : String)
    (sid : Int) : List WeatherRow :=
  List.insertionSort obsDateHourAsc
    (table.filter fun r => sqlLe startS r.date && sqlLe r.date endS && r.station_id == sid)

/-- Per `(incident, nearby station)` step of `get_incident_training_data`:
fetch the window `[reported_at - 1h, reported_at + 1h]` (passed as the ISO
strings `startS`/`endS` that `datetime.isoformat` produces) through
`get_data_by_date_range`; when no data comes back the pair is skipped,
otherwise the first returned record `weather_data[0]` is used. -/
noncomputable def sampleForStation (table : List WeatherRow) (inc : Incident)
    (sid : Int) (d : ℝ) (startS endS : String) : Option Sample :=
  match get_data_by_date_range table startS endS sid with
  | [] => none
  | w :: _ => some (mkSample inc sid d w)

/-- The station-1 observation of 2024-06-15, hour 12 — squarely inside the
±1 hour window of an incident reported at 12:30 that day. -/
def c7Station : WeatherRow :=
  freshWeatherRow
    ⟨1, "S1", "R", some 9, some (-79), some 100, "2024-06-15T12:00:00+00:00",
      some 25, some 26, some 80, some 10, some "N", some 90, some 2, some "rain",
      some 1010, some 50, some "s", some "i"⟩ "2024-06-15" 12 "c1"

/-- C7 (failing-input evaluation): for an incident reported at
`2024-06-15T12:30:00+00:00` the correlation queries
`date BETWEEN '2024-06-15T11:30:00+00:00' AND '2024-06-15T13:30:00+00:00'`.
The stored `date` value `'2024-06-15'` is a strict prefix of the lower
bound, so under SQLite's TEXT comparison it sorts below it and the query
returns no rows — the `(station, incident)` pair is skipped even though
the station's hour-12 observation (timestamp shown to lie inside the
window) exists.  This contradicts the claimed "observation nearest to the
report time within a ±1 hour window" behaviour. -/
theorem incident_window_query_bug :
    (sqlLe "2024-06-15T11:30:00+00:00" c7Station.timestamp = true ∧
     sqlLe c7Station.timestamp "2024-06-15T13:30:00+00:00" = true) ∧
    get_data_by_date_range [c7Station]
      "2024-06-15T11:30:00+00:00" "2024-06-15T13:30:00+00:00" 1 = [] ∧
    sampleForStation [c7Station] ⟨7, "flood", "high", 9, -79, "2024-06-15T12:30:00+00:00"⟩
      1 5 "2024-06-15T11:30:00+00:00" "2024-06-15T13:30:00+00:00" = none := by
  refine ⟨⟨by decide, by decide⟩, ?_, ?_⟩
  · decide
  · unfold sampleForStation
    have h : get_data_by_date_range [c7Station]
        "2024-06-15T11:30:00+00:00" "2024-06-15T13:30:00+00:00" 1 = [] := by decide
    rw [h]

/-! ## Risk predictor (`risk_predictor.RiskPredictor`) -/

/-- A Python exception as far as the embedded control flow distinguishes
them. -/
inductive PyErr where
  | valueError (msg : String)
  | attributeError (msg : String)
  | typeError (msg : String)
deriving DecidableEq, Repr

/-- The features dictionary handed to `predict` (any key may be absent). -/
structure FeatureDict where
  temperature : Option ℚ
  humidity : Option ℚ
  precipitation_total : Option ℚ
  wind_speed : Option ℚ
  pressure : Option ℚ
  temp_change : Option ℚ
  humidity_change : Option ℚ
  precip_change : Option ℚ
  wind_change : Option ℚ
  pressure_change : Option ℚ
deriving DecidableEq, Repr

/-- The single-row frame `predict` builds (`features.get(k, default)` with
default `0`, and `1013` for pressure). -/
structure FeatureRow where
  temperature : ℚ
  humidity : ℚ
  precipitation_total : ℚ
  wind_speed : ℚ
  pressure : ℚ
  temp_change : ℚ
  humidity_change : ℚ
  precip_change : ℚ
  wind_change : ℚ
  pressure_change : ℚ
deriving DecidableEq, Repr

def buildFeatureRow (f : FeatureDict) : FeatureRow :=
  { temperature := f.temperature.getD 0,
    humidity := f.humidity.getD 0,
    precipitation_total := f.precipitation_total.getD 0,
    wind_speed := f.wind_speed.getD 0,
    pressure := f.pressure.getD 1013,
    temp_change := f.temp_change.getD 0,
    humidity_change := f.humidity_change.getD 0,
    precip_change := f.precip_change.getD 0,
    wind_change := f.wind_change.getD 0,
    pressure_change := f.pressure_change.getD 0 }

/-- The two model slots of a predictor instance; a loaded regression model
is a real-valued function of the feature row. -/
structure RiskPredictorModels where
  flood_model : Option (FeatureRow → ℝ)
  drought_model : Option (FeatureRow → ℝ)

/-- Embeds `RiskPredictor.predict`: raise when either model slot is `None`
(the "modelos no entrenados" `ValueError` — the spec's ModelUnavailable);
otherwise evaluate both models on the feature row and clamp each output
into `[0, 1]` via `max(0.0, min(1.0, x))`. -/
noncomputable def predict (p : RiskPredictorModels) (features : FeatureDict) :
    Except PyErr (ℝ × ℝ) :=
  match p.flood_model, p.drought_model with
  | some fm, some dm =>
      .ok (max 0 (min 1 (fm (buildFeatureRow features))),
           max 0 (min 1 (dm (buildFeatureRow features))))
  | _, _ => .error (.valueError "Modelos no entrenados. Llama a train() primero.")

/-- C6: `predict` fails with the ModelUnavailable error exactly when a
model slot is missing; with both models loaded it returns flood and
drought risks clamped into `[0, 1]` for every feature dictionary. -/
theorem predict_model_unavailable_spec (p : RiskPredictorModels) (features : FeatureDict) :
    ((∃ e, predict p features = .error e) ↔
      (p.flood_model = none ∨ p.drought_model = none)) ∧
    (∀ e, predict p features = .error e →
      e = .valueError "Modelos no entrenados. Llama a train() primero.") ∧
    (∀ fm dm, p.flood_model = some fm → p.drought_model = some dm →
      ∃ fr dr, predict p features = .ok (fr, dr) ∧
        0 ≤ fr ∧ fr ≤ 1 ∧ 0 ≤ dr ∧ dr ≤ 1) := by
  obtain ⟨fo, go⟩ := p
  have hclamp0 : ∀ x : ℝ, 0 ≤ max 0 (min 1 x) := fun x => le_max_left 0 _
  have hclamp1 : ∀ x : ℝ, max 0 (min 1 x) ≤ 1 :=
    fun x => max_le zero_le_one (min_le_left 1 x)
  cases fo with
  | none =>
      cases go <;>
        exact ⟨⟨fun _ => Or.inl rfl, fun _ => ⟨_, rfl⟩⟩,
          fun e he => by simpa [predict] using he.symm,
          fun fm dm hfm hdm => by simp at hfm⟩
  | some fm0 =>
      cases go with
      | none =>
          exact ⟨⟨fun _ => Or.inr rfl, fun _ => ⟨_, rfl⟩⟩,
            fun e he => by simpa [predict] using he.symm,
            fun fm dm hfm hdm => by simp at hdm⟩
      | some dm0 =>
          refine ⟨⟨fun ⟨e, he⟩ => by simp [predict] at he, fun h => by simp at h⟩,
            fun e he => by simp [predict] at he,
            fun fm dm hfm hdm => ?_⟩
          simp only [Option.some.injEq] at hfm hdm
          exact ⟨_, _, rfl, hclamp0 _, hclamp1 _, hclamp0 _, hclamp1 _⟩

/-- C6 witness: with no model loaded `predict` fails; with models whose
raw outputs are `2` and `-3` it succeeds with both risks clamped into
`[0, 1]`. -/
theorem predict_model_unavailable_witness :
    (∃ e, predict ⟨none, none⟩
      ⟨none, none, none, none, none, none, none, none, none, none⟩ = .error e) ∧
    (∃ fr dr, predict ⟨some fun _ => (2 : ℝ), some fun _ => (-3 : ℝ)⟩
        ⟨none, none, none, none, none, none, none, none, none, none⟩ = .ok (fr, dr) ∧
      0 ≤ fr ∧ fr ≤ 1 ∧ 0 ≤ dr ∧ dr ≤ 1) := by
  constructor
  · exact (predict_model_unavailable_spec ⟨none, none⟩
      ⟨none, none, none, none, none, none, none, none, none, none⟩).1.mpr (Or.inl rfl)
  · exact (predict_model_unavailable_spec ⟨some fun _ => (2 : ℝ), some fun _ => (-3 : ℝ)⟩
      ⟨none, none, none, none, none, none, none, none, none, none⟩).2.2 _ _ rfl rfl

/-! ## `RiskPredictor.__init__` and the training fallback
(`risk_predictor.py`, `incident_correlation.get_combined_training_data`) -/

/-- Names bound in the class body of `RiskPredictor` (its methods); Python
attribute lookup falls back to the class after the instance dictionary. -/
def riskPredictorClassAttrs : List String :=
  ["__init__", "prepare_training_data", "_calculate_historical_risks", "train",
   "predict", "predict_from_forecast", "_get_risk_level_from_prob",
   "save_model", "load_model"]

/-- Instance attributes `__init__` has assigned to `self` before it
evaluates `self.label_mapping` (line 51 of `risk_predictor.py`). -/
def initAssignedAttrs : List String := ["flood_model", "drought_model", "feature_names"]

/-- Python attribute lookup: instance dictionary first, then the class;
`AttributeError` when neither holds the name. -/
def pyGetAttr (instanceAttrs classAttrs : List String) (name : String) :
    Except PyErr Unit :=
  if instanceAttrs.contains name || classAttrs.contains name then .ok ()
  else .error (.attributeError name)

/-- Embeds `RiskPredictor.__init__(model_path)`: assigns `flood_model`,
`drought_model` and `feature_names`, then evaluates `self.label_mapping`
to build `reverse_mapping`; only afterwards would a supplied existing
`model_path` be loaded.  The argument records whether such a path was
given. -/
def riskPredictorInit (_modelPathExists : Bool) : Except PyErr (List String) :=
  match pyGetAttr initAssignedAttrs riskPredictorClassAttrs "label_mapping" with
  | .error e => .error e
  | .ok _ => .ok (initAssignedAttrs ++ ["reverse_mapping"])

/-- C10: constructing a `RiskPredictor` raises `AttributeError` for every
argument, because `__init__` reads `self.label_mapping`, which neither the
instance (only `flood_model`, `drought_model`, `feature_names` are assigned
by then) nor the class body defines. -/
theorem riskPredictor_init_raises :
    riskPredictorInit true = .error (.attributeError "label_mapping") ∧
    riskPredictorInit false = .error (.attributeError "label_mapping") := by
  exact ⟨rfl, rfl⟩

/-- Embeds `get_incident_training_data`, parameterised by the per-incident nearby
stations (output of the 50 km haversine filter, closest first) and the ±1h
window strings the `datetime` arithmetic produces: zero incidents yield
empty containers, otherwise each incident contributes one sample per
nearby station that has window data. -/
noncomputable def get_incident_training_data (incidents : List Incident)
    (nearby : Incident → List (Int × ℝ)) (window : Incident → String × String)
    (table : List WeatherRow) : List Sample :=
  match incidents with
  | [] => []
  | _ =>
      incidents.flatMap fun inc =>
        (nearby inc).filterMap fun sd =>
          sampleForStation table inc sd.1 sd.2 (window inc).1 (window inc).2

/-- The keyword parameters `prepare_training_data` accepts. -/
def prepareTrainingDataParams : List String := ["min_samples"]

/-- Python keyword-call semantics: `TypeError` when a passed keyword is not
among the callee's parameters. -/
def pyCheckKwargs (params kwargs : List String) (fname : String) : Except PyErr Unit :=
  match kwargs.find? (fun k => !params.contains k) with
  | some k => .error (.typeError (fname ++ "() got an unexpected keyword argument " ++ k))
  | none => .ok ()

/-- Embeds `get_combined_training_data(use_incidents=True)`: return the incident
samples when non-empty; otherwise construct a fresh `RiskPredictor` and ask
it for the synthetic dataset — the construction runs first. -/
noncomputable def get_combined_training_data (synthetic : List Sample)
    (incidents : List Incident) (nearby : Incident → List (Int × ℝ))
    (window : Incident → String × String) (table : List WeatherRow) :
    Except PyErr (List Sample) :=
  let xs := get_incident_training_data incidents nearby window table
  if 0 < xs.length then .ok xs
  else
    match riskPredictorInit false with
    | .error e => .error e
    | .ok _ => .ok synthetic

/-- Embeds `RiskPredictor.train(use_incidents=True)` up to training-data
acquisition: try `get_combined_training_data`; on any exception fall back
to `self.prepare_training_data(days_back=days_back)` — a call that passes
the keyword `days_back`, which `prepare_training_data` does not accept. -/
noncomputable def train_acquire_data (synthetic : List Sample)
    (incidents : List Incident) (nearby : Incident → List (Int × ℝ))
    (window : Incident → String × String) (table : List WeatherRow) :
    Except PyErr (List Sample) :=
  match get_combined_training_data synthetic incidents nearby window table with
  | .ok xs => .ok xs
  | .error _ =>
      match pyCheckKwargs prepareTrainingDataParams ["days_back"] "prepare_training_data" with
      | .error e => .error e
      | .ok _ => .ok synthetic

/-- C8 (failing-input evaluation): with zero incident reports,
`get_incident_training_data` does return empty containers — but `train`'s
synthetic fallback never produces a model: `get_combined_training_data`
crashes constructing `RiskPredictor()` (`AttributeError: label_mapping`),
and the exception handler of `train` then calls
`prepare_training_data(days_back=...)`, whose only parameter is
`min_samples`, raising `TypeError`. -/
theorem train_empty_incidents_crashes (synthetic : List Sample)
    (nearby : Incident → List (Int × ℝ)) (window : Incident → String × String)
    (table : List WeatherRow) :
    get_incident_training_data [] nearby window table = [] ∧
    get_combined_training_data synthetic [] nearby window table =
      .error (.attributeError "label_mapping") ∧
    train_acquire_data synthetic [] nearby window table =
      .error (.typeError
        "prepare_training_data() got an unexpected keyword argument days_back") := by
  refine ⟨rfl, ?_, ?_⟩
  · unfold get_combined_training_data get_incident_training_data
    rfl
  · unfold train_acquire_data get_combined_training_data get_incident_training_data
    rfl

end Raindrop
